import Mathlib

/-!
Shallow embedding of `cost-center-automation/json-to-xlsx/json_to_xlsx.py`.

The program loads a JSON (or newline-delimited JSON) file into a list of
records, projects the records into six flat tables (one main-metrics table
and five breakdown tables), and writes the non-empty tables as tabs of a
workbook.

JSON values are embedded as the inductive `Json`.  Python `dict` values
become association lists that preserve insertion order (as Python dicts
do).  Fallible Python operations — attribute errors from calling `.get`
on a non-dict, type errors from iterating a non-iterable — are embedded
as `Option`-valued functions, `none` marking a raised exception.
-/

inductive Json where
  | null : Json
  | bool : Bool → Json
  | num : Int → Json
  | str : String → Json
  | arr : List Json → Json
  | obj : List (String × Json) → Json
deriving Repr

/-- A flat table row: column name to cell value, in column order. -/
abbrev Row := List (String × Json)

/-- First-match lookup in an association list (Python dict access). -/
def lookupField : List (String × Json) → String → Option Json
  | [], _ => none
  | (k, v) :: rest, key => if k = key then some v else lookupField rest key

/-- `record.get(key, default)`: defined on dicts only; on any other value
Python raises `AttributeError`, embedded as `none`. -/
def Json.pyGet : Json → String → Json → Option Json
  | .obj fs, key, dflt => some ((lookupField fs key).getD dflt)
  | _, _, _ => none

/-- `for x in v`: Python iteration.  Lists yield their elements, strings
their one-character substrings, dicts their keys; any other value raises
`TypeError`, embedded as `none`. -/
def Json.pyIter : Json → Option (List Json)
  | .arr xs => some xs
  | .str s => some (s.data.map (fun c => Json.str (String.mk [c])))
  | .obj fs => some (fs.map (fun kv => Json.str kv.fst))
  | _ => none

/-- Whether a JSON value is an object (a Python dict). -/
def Json.isObj : Json → Bool
  | .obj _ => true
  | _ => false

/-- Field lookup on an object; `none` on a non-object or an absent key. -/
def recField : Json → String → Option Json
  | .obj fs, k => lookupField fs k
  | _, _ => none

/-- Python `str.strip()` on a character list: drop leading and trailing
whitespace. -/
def stripChars (l : List Char) : List Char :=
  ((l.dropWhile Char.isWhitespace).reverse.dropWhile Char.isWhitespace).reverse

/-- Python `content.strip()`. -/
def pyStrip (s : String) : String :=
  String.mk (stripChars s.data)

/-- Helper for `pySplitLines`: accumulate the current line (reversed). -/
def splitLinesAux : List Char → List Char → List String
  | [], cur => [String.mk cur.reverse]
  | c :: cs, cur =>
      if c = '\n' then String.mk cur.reverse :: splitLinesAux cs []
      else splitLinesAux cs (c :: cur)

/-- Python `content.split("\n")`: split on newline, keeping empty pieces. -/
def pySplitLines (s : String) : List String :=
  splitLinesAux s.data []

example : Json.pyGet (.obj [("a", .num 1)]) "a" (.num 0) = some (.num 1) := rfl
example : pyStrip " a\nb " = "a\nb" := rfl
example : pySplitLines "a\nb" = ["a", "b"] := rfl
example : pySplitLines "" = [""] := rfl

/-! ## The loader: `load_json_data`

The whole-file read and `json.loads` are external to the program; the
loader's own logic is parameterized over an abstract JSON parser
`jparse : String → Option Json` (`none` marking `json.JSONDecodeError`)
and over the file's content (`none` marking `FileNotFoundError` or any
other read error, whose handlers both return `[]`). -/

/-- The NDJSON fallback loop: for each line of the (stripped) content,
skip it when blank, otherwise append its parsed value when it parses and
skip it (with a logged message) when it does not. -/
def ndjsonFold (jparse : String → Option Json) (lines : List String) : List Json :=
  lines.foldl
    (fun acc line =>
      if pyStrip line = "" then acc
      else
        match jparse line with
        | some v => acc ++ [v]
        | none => acc)
    []

/-- Content-level logic of `load_json_data`: strip the content, try a
whole-document parse (a list is used as-is, any other value is wrapped in
a one-element list), and fall back to line-by-line NDJSON parsing. -/
def loadContent (jparse : String → Option Json) (content : String) : List Json :=
  match jparse (pyStrip content) with
  | some (.arr xs) => xs
  | some v => [v]
  | none => ndjsonFold jparse (pySplitLines (pyStrip content))

/-- `load_json_data`: `none` for the file stands for a failed read
(`FileNotFoundError` or any other exception), which returns `[]`. -/
def load_json_data (jparse : String → Option Json) : Option String → List Json
  | none => []
  | some content => loadContent jparse content

/-! ## Sheet builders

Each Python builder is a `for` loop that appends rows to an accumulator
list; an uncaught exception aborts the whole builder (`none`).  The loop
is embedded as `sheetLoop`, the per-record work as an `Option`-valued
function. -/

/-- A builder's `for record in data` loop: each record contributes a
block of rows appended to the accumulator; an exception (`none`) from a
record aborts the loop. -/
def sheetLoop (f : Json → Option (List Row)) : List Json → List Row → Option (List Row)
  | [], acc => some acc
  | r :: rs, acc =>
      match f r with
      | none => none
      | some rows => sheetLoop f rs (acc ++ rows)

/-- Left-to-right traversal collecting one result per element, aborting
at the first failure (the compositional form of the builder loops). -/
def collectRows {α β : Type} (f : α → Option β) : List α → Option (List β)
  | [] => some []
  | a :: as =>
      match f a with
      | none => none
      | some b =>
          match collectRows f as with
          | none => none
          | some bs => some (b :: bs)

/-- The `main_row` dict built for one record in `create_main_metrics_sheet`:
fifteen `record.get` calls with scalar defaults.  On a dict every `get`
succeeds; on any other value the first `.get` raises (`none`). -/
def mainRow : Json → Option Row
  | .obj fs =>
      some
        [("Report Start", (lookupField fs "report_start_day").getD (.str "")),
         ("Report End", (lookupField fs "report_end_day").getD (.str "")),
         ("Day", (lookupField fs "day").getD (.str "")),
         ("Enterprise ID", (lookupField fs "enterprise_id").getD (.str "")),
         ("User ID", (lookupField fs "user_id").getD (.str "")),
         ("User Login", (lookupField fs "user_login").getD (.str "")),
         ("User Initiated Interactions",
           (lookupField fs "user_initiated_interaction_count").getD (.num 0)),
         ("Code Generation Activity",
           (lookupField fs "code_generation_activity_count").getD (.num 0)),
         ("Code Acceptance Activity",
           (lookupField fs "code_acceptance_activity_count").getD (.num 0)),
         ("LOC Suggested to Add",
           (lookupField fs "loc_suggested_to_add_sum").getD (.num 0)),
         ("LOC Suggested to Delete",
           (lookupField fs "loc_suggested_to_delete_sum").getD (.num 0)),
         ("LOC Added", (lookupField fs "loc_added_sum").getD (.num 0)),
         ("LOC Deleted", (lookupField fs "loc_deleted_sum").getD (.num 0)),
         ("Used Agent", (lookupField fs "used_agent").getD (.bool false)),
         ("Used Chat", (lookupField fs "used_chat").getD (.bool false))]
  | _ => none

/-- `create_main_metrics_sheet`: one appended row per record. -/
def create_main_metrics_sheet (data : List Json) : Option (List Row) :=
  sheetLoop (fun r => (mainRow r).map (fun row => [row])) data []

/-- The shared shape of the five breakdown builders: build `user_info`
from the record's `user_login` and `day`, fetch the named nested-list
field (default `[]`), iterate it, and emit one row per entry. -/
def breakdownRecordRows (field : String) (entryRow : Row → Json → Option Row)
    (r : Json) : Option (List Row) :=
  match r.pyGet "user_login" (.str "") with
  | none => none
  | some u =>
      match r.pyGet "day" (.str "") with
      | none => none
      | some d =>
          match r.pyGet field (.arr []) with
          | none => none
          | some v =>
              match v.pyIter with
              | none => none
              | some entries =>
                  collectRows (entryRow [("User Login", u), ("Day", d)]) entries

/-- The row built for one entry of `totals_by_ide` in
`create_ide_totals_sheet`; `Plugin Version` and `IDE Version` go through
a second `.get` on a nested object (default `()`), which raises when the
fetched value is not a dict. -/
def ideEntryRow (userInfo : Row) : Json → Option Row
  | .obj fs =>
      match ((lookupField fs "last_known_plugin_version").getD (.obj [])).pyGet
              "plugin_version" (.str ""),
            ((lookupField fs "last_known_ide_version").getD (.obj [])).pyGet
              "ide_version" (.str "") with
      | some pv, some iv =>
          some
            (userInfo ++
              [("IDE", (lookupField fs "ide").getD (.str "")),
               ("User Initiated Interactions",
                 (lookupField fs "user_initiated_interaction_count").getD (.num 0)),
               ("Code Generation Activity",
                 (lookupField fs "code_generation_activity_count").getD (.num 0)),
               ("Code Acceptance Activity",
                 (lookupField fs "code_acceptance_activity_count").getD (.num 0)),
               ("LOC Suggested to Add",
                 (lookupField fs "loc_suggested_to_add_sum").getD (.num 0)),
               ("LOC Suggested to Delete",
                 (lookupField fs "loc_suggested_to_delete_sum").getD (.num 0)),
               ("LOC Added", (lookupField fs "loc_added_sum").getD (.num 0)),
               ("LOC Deleted", (lookupField fs "loc_deleted_sum").getD (.num 0)),
               ("Plugin Version", pv),
               ("IDE Version", iv)])
      | _, _ => none
  | _ => none

/-- `create_ide_totals_sheet`. -/
def create_ide_totals_sheet (data : List Json) : Option (List Row) :=
  sheetLoop (breakdownRecordRows "totals_by_ide" ideEntryRow) data []

/-- The row built for one entry of `totals_by_feature`. -/
def featureEntryRow (userInfo : Row) : Json → Option Row
  | .obj fs =>
      some
        (userInfo ++
          [("Feature", (lookupField fs "feature").getD (.str "")),
           ("User Initiated Interactions",
             (lookupField fs "user_initiated_interaction_count").getD (.num 0)),
           ("Code Generation Activity",
             (lookupField fs "code_generation_activity_count").getD (.num 0)),
           ("Code Acceptance Activity",
             (lookupField fs "code_acceptance_activity_count").getD (.num 0)),
           ("LOC Suggested to Add",
             (lookupField fs "loc_suggested_to_add_sum").getD (.num 0)),
           ("LOC Suggested to Delete",
             (lookupField fs "loc_suggested_to_delete_sum").getD (.num 0)),
           ("LOC Added", (lookupField fs "loc_added_sum").getD (.num 0)),
           ("LOC Deleted", (lookupField fs "loc_deleted_sum").getD (.num 0))])
  | _ => none

/-- `create_feature_totals_sheet`. -/
def create_feature_totals_sheet (data : List Json) : Option (List Row) :=
  sheetLoop (breakdownRecordRows "totals_by_feature" featureEntryRow) data []

/-- The row built for one entry of `totals_by_language_feature` (no
user-initiated-interactions column in this sheet). -/
def langFeatureEntryRow (userInfo : Row) : Json → Option Row
  | .obj fs =>
      some
        (userInfo ++
          [("Language", (lookupField fs "language").getD (.str "")),
           ("Feature", (lookupField fs "feature").getD (.str "")),
           ("Code Generation Activity",
             (lookupField fs "code_generation_activity_count").getD (.num 0)),
           ("Code Acceptance Activity",
             (lookupField fs "code_acceptance_activity_count").getD (.num 0)),
           ("LOC Suggested to Add",
             (lookupField fs "loc_suggested_to_add_sum").getD (.num 0)),
           ("LOC Suggested to Delete",
             (lookupField fs "loc_suggested_to_delete_sum").getD (.num 0)),
           ("LOC Added", (lookupField fs "loc_added_sum").getD (.num 0)),
           ("LOC Deleted", (lookupField fs "loc_deleted_sum").getD (.num 0))])
  | _ => none

/-- `create_language_feature_sheet`. -/
def create_language_feature_sheet (data : List Json) : Option (List Row) :=
  sheetLoop (breakdownRecordRows "totals_by_language_feature" langFeatureEntryRow) data []

/-- The row built for one entry of `totals_by_language_model`. -/
def langModelEntryRow (userInfo : Row) : Json → Option Row
  | .obj fs =>
      some
        (userInfo ++
          [("Language", (lookupField fs "language").getD (.str "")),
           ("Model", (lookupField fs "model").getD (.str "")),
           ("Code Generation Activity",
             (lookupField fs "code_generation_activity_count").getD (.num 0)),
           ("Code Acceptance Activity",
             (lookupField fs "code_acceptance_activity_count").getD (.num 0)),
           ("LOC Suggested to Add",
             (lookupField fs "loc_suggested_to_add_sum").getD (.num 0)),
           ("LOC Suggested to Delete",
             (lookupField fs "loc_suggested_to_delete_sum").getD (.num 0)),
           ("LOC Added", (lookupField fs "loc_added_sum").getD (.num 0)),
           ("LOC Deleted", (lookupField fs "loc_deleted_sum").getD (.num 0))])
  | _ => none

/-- `create_language_model_sheet`. -/
def create_language_model_sheet (data : List Json) : Option (List Row) :=
  sheetLoop (breakdownRecordRows "totals_by_language_model" langModelEntryRow) data []

/-- The row built for one entry of `totals_by_model_feature`. -/
def modelFeatureEntryRow (userInfo : Row) : Json → Option Row
  | .obj fs =>
      some
        (userInfo ++
          [("Model", (lookupField fs "model").getD (.str "")),
           ("Feature", (lookupField fs "feature").getD (.str "")),
           ("User Initiated Interactions",
             (lookupField fs "user_initiated_interaction_count").getD (.num 0)),
           ("Code Generation Activity",
             (lookupField fs "code_generation_activity_count").getD (.num 0)),
           ("Code Acceptance Activity",
             (lookupField fs "code_acceptance_activity_count").getD (.num 0)),
           ("LOC Suggested to Add",
             (lookupField fs "loc_suggested_to_add_sum").getD (.num 0)),
           ("LOC Suggested to Delete",
             (lookupField fs "loc_suggested_to_delete_sum").getD (.num 0)),
           ("LOC Added", (lookupField fs "loc_added_sum").getD (.num 0)),
           ("LOC Deleted", (lookupField fs "loc_deleted_sum").getD (.num 0))])
  | _ => none

/-- `create_model_feature_sheet`. -/
def create_model_feature_sheet (data : List Json) : Option (List Row) :=
  sheetLoop (breakdownRecordRows "totals_by_model_feature" modelFeatureEntryRow) data []

/-! ## Derived quantities the specification talks about -/

/-- Length of a record's named nested list: `0` when the record lacks the
field (and when the field's value is not a list, in which case the
builders can only succeed by emitting zero rows from it). -/
def nestedLen (field : String) (r : Json) : Nat :=
  match recField r field with
  | some (.arr xs) => xs.length
  | _ => 0

/-- The carry-over `User Login` value of a record (default `""`). -/
def carryUser (r : Json) : Json :=
  (recField r "user_login").getD (.str "")

/-- The carry-over `Day` value of a record (default `""`). -/
def carryDay (r : Json) : Json :=
  (recField r "day").getD (.str "")

/-- Stated from the claim for comparison with the code: the `Plugin
Version` cell is `entry.last_known_plugin_version.plugin_version`,
defaulting to `""` when the nested object or its inner field is absent. -/
def specPluginVersion (e : Json) : Json :=
  match recField e "last_known_plugin_version" with
  | some (.obj gs) => (lookupField gs "plugin_version").getD (.str "")
  | _ => .str ""

/-- Stated from the claim for comparison with the code: the `IDE Version`
cell is `entry.last_known_ide_version.ide_version`, defaulting to `""`. -/
def specIdeVersion (e : Json) : Json :=
  match recField e "last_known_ide_version" with
  | some (.obj gs) => (lookupField gs "ide_version").getD (.str "")
  | _ => .str ""

/-- The compositional (pure, per-record) form of the main-metrics
builder, against which the accumulator loop is compared. -/
def mainMetricsTable (data : List Json) : Option (List Row) :=
  collectRows mainRow data

/-- The compositional (pure, per-record) form of a breakdown builder:
map each record to its block of rows and concatenate the blocks. -/
def breakdownTable (field : String) (entryRow : Row → Json → Option Row)
    (data : List Json) : Option (List Row) :=
  (collectRows (breakdownRecordRows field entryRow) data).map List.flatten

/-- A nested version field of an IDE entry is harmless when absent or an
object; any other present value makes the second-level `.get` raise. -/
def goodVersionField (e : Json) (field : String) : Bool :=
  match recField e field with
  | none => true
  | some v => v.isObj

/-- Well-formedness of one `totals_by_ide` entry: an object whose two
version fields, when present, are objects. -/
def goodIdeEntry (e : Json) : Bool :=
  e.isObj && goodVersionField e "last_known_plugin_version" &&
    goodVersionField e "last_known_ide_version"

/-- Well-formedness of a record's named breakdown field: absent, or a
list whose entries all satisfy `p`. -/
def goodBreakdownField (r : Json) (field : String) (p : Json → Bool) : Bool :=
  match recField r field with
  | none => true
  | some (.arr es) => es.all p
  | some _ => false

/-- Well-formedness of one record, sufficient for every builder to run
without an error: an object whose five breakdown fields, when present,
are lists of objects (IDE entries additionally with object-or-absent
version fields). -/
def wfRecord (r : Json) : Bool :=
  r.isObj && goodBreakdownField r "totals_by_ide" goodIdeEntry &&
    goodBreakdownField r "totals_by_feature" Json.isObj &&
    goodBreakdownField r "totals_by_language_feature" Json.isObj &&
    goodBreakdownField r "totals_by_language_model" Json.isObj &&
    goodBreakdownField r "totals_by_model_feature" Json.isObj

/-! ## The writer: `convert_json_to_xlsx` -/

/-- Result of one run of `convert_json_to_xlsx`: early return on empty
data (no workbook written), an unhandled builder exception, or a written
workbook as an ordered list of (tab name, table) pairs. -/
inductive ConvertResult where
  | noData : ConvertResult
  | builderError : ConvertResult
  | wrote : List (String × List Row) → ConvertResult

/-- The `sheets` dict of `convert_json_to_xlsx`, in insertion order; a
raised exception in any builder propagates. -/
def buildSheets (data : List Json) : Option (List (String × List Row)) :=
  match create_main_metrics_sheet data, create_ide_totals_sheet data,
        create_feature_totals_sheet data, create_language_feature_sheet data,
        create_language_model_sheet data, create_model_feature_sheet data with
  | some m, some i, some f, some lf, some lm, some mf =>
      some
        [("Main_Metrics", m), ("IDE_Totals", i), ("Feature_Totals", f),
         ("Language_Feature", lf), ("Language_Model", lm), ("Model_Feature", mf)]
  | _, _, _, _, _, _ => none

/-- `convert_json_to_xlsx`: load, return early when no data, build the
six sheets, and write exactly the non-empty ones in dict order (an empty
sheet only prints a warning). -/
def convert_json_to_xlsx (jparse : String → Option Json)
    (file : Option String) : ConvertResult :=
  let data := load_json_data jparse file
  if data.isEmpty then ConvertResult.noData
  else
    match buildSheets data with
    | none => ConvertResult.builderError
    | some sheets => ConvertResult.wrote (sheets.filter (fun p => !p.2.isEmpty))

/-! ## Helper lemmas -/

theorem collectRows_forall₂ {α β : Type} {f : α → Option β} :
    ∀ {l : List α} {r : List β}, collectRows f l = some r →
      List.Forall₂ (fun a b => f a = some b) l r := by
  intro l
  induction l with
  | nil =>
      intro r h
      simp only [collectRows, Option.some.injEq] at h
      subst h
      exact List.Forall₂.nil
  | cons a as ih =>
      intro r h
      simp only [collectRows] at h
      cases hfa : f a with
      | none => rw [hfa] at h; exact absurd h (by simp)
      | some b =>
          rw [hfa] at h
          cases hrec : collectRows f as with
          | none => rw [hrec] at h; exact absurd h (by simp)
          | some bs =>
              rw [hrec] at h
              simp only [Option.some.injEq] at h
              subst h
              exact List.Forall₂.cons hfa (ih hrec)

theorem collectRows_head_some {α β : Type} {f : α → Option β} {a : α} {as : List α}
    {r : List β} (h : collectRows f (a :: as) = some r) : ∃ b, f a = some b := by
  simp only [collectRows] at h
  cases hfa : f a with
  | none => rw [hfa] at h; exact absurd h (by simp)
  | some b => exact ⟨b, rfl⟩

theorem collectRows_isSome {α β : Type} {f : α → Option β} :
    ∀ {l : List α}, (∀ a ∈ l, ∃ b, f a = some b) → ∃ r, collectRows f l = some r := by
  intro l
  induction l with
  | nil => intro _; exact ⟨[], rfl⟩
  | cons a as ih =>
      intro hall
      obtain ⟨b, hb⟩ := hall a (List.mem_cons_self a as)
      obtain ⟨bs, hbs⟩ := ih (fun x hx => hall x (List.mem_cons_of_mem a hx))
      exact ⟨b :: bs, by simp only [collectRows]; rw [hb, hbs]⟩

theorem forall₂_mem_right {α β : Type} {R : α → β → Prop} :
    ∀ {l : List α} {r : List β}, List.Forall₂ R l r →
      ∀ {b : β}, b ∈ r → ∃ a, a ∈ l ∧ R a b := by
  intro l r h
  induction h with
  | nil => intro b hb; cases hb
  | cons hab _ ih =>
      intro b hb
      rcases List.mem_cons.mp hb with h1 | h2
      · subst h1; exact ⟨_, List.mem_cons_self _ _, hab⟩
      · obtain ⟨a, ha, hr⟩ := ih h2
        exact ⟨a, List.mem_cons_of_mem _ ha, hr⟩

theorem forall₂_map_eq {α β γ : Type} {R : α → β → Prop} {φ : α → γ} {ψ : β → γ}
    (h : ∀ a b, R a b → φ a = ψ b) :
    ∀ {l : List α} {r : List β}, List.Forall₂ R l r → l.map φ = r.map ψ := by
  intro l r hlr
  induction hlr with
  | nil => rfl
  | cons hab _ ih => simp only [List.map_cons, h _ _ hab, ih]

theorem sheetLoop_eq_collect (f : Json → Option (List Row)) :
    ∀ (l : List Json) (acc : List Row),
      sheetLoop f l acc = (collectRows f l).map (fun rss => acc ++ rss.flatten) := by
  intro l
  induction l with
  | nil => intro acc; simp [sheetLoop, collectRows]
  | cons r rs ih =>
      intro acc
      simp only [sheetLoop, collectRows]
      cases hfr : f r with
      | none => simp
      | some rows =>
          simp only
          rw [ih (acc ++ rows)]
          cases collectRows f rs <;> simp [List.append_assoc]

theorem mainLoop_eq_collect :
    ∀ (l : List Json) (acc : List Row),
      sheetLoop (fun r => (mainRow r).map (fun row => [row])) l acc
        = (collectRows mainRow l).map (fun rows => acc ++ rows) := by
  intro l
  induction l with
  | nil => intro acc; simp [sheetLoop, collectRows]
  | cons r rs ih =>
      intro acc
      simp only [sheetLoop, collectRows]
      cases hfr : mainRow r with
      | none => simp
      | some row =>
          simp only [Option.map_some']
          rw [ih (acc ++ [row])]
          cases collectRows mainRow rs <;> simp

theorem lookup_carry_user (u d : Json) (cols : Row) :
    lookupField ([("User Login", u), ("Day", d)] ++ cols) "User Login" = some u := rfl

theorem lookup_carry_day (u d : Json) (cols : Row) :
    lookupField ([("User Login", u), ("Day", d)] ++ cols) "Day" = some d := rfl

theorem breakdownRecordRows_spec {field : String} {er : Row → Json → Option Row}
    (hObj : ∀ ui e row, er ui e = some row → Json.isObj e = true)
    (hShape : ∀ ui e row, er ui e = some row → ∃ cols, row = ui ++ cols) :
    ∀ {r : Json} {rs : List Row}, breakdownRecordRows field er r = some rs →
      rs.length = nestedLen field r ∧
      ∀ row ∈ rs, lookupField row "User Login" = some (carryUser r) ∧
                  lookupField row "Day" = some (carryDay r) := by
  intro r rs h
  cases r with
  | obj fs =>
      simp only [breakdownRecordRows, Json.pyGet] at h
      have hcarry :
          ∀ {entries : List Json},
            collectRows
                (er [("User Login", (lookupField fs "user_login").getD (.str "")),
                     ("Day", (lookupField fs "day").getD (.str ""))]) entries = some rs →
              ∀ row ∈ rs, lookupField row "User Login" = some (carryUser (.obj fs)) ∧
                          lookupField row "Day" = some (carryDay (.obj fs)) := by
        intro entries hc row hrow
        obtain ⟨e, _, he⟩ := forall₂_mem_right (collectRows_forall₂ hc) hrow
        obtain ⟨cols, hcols⟩ := hShape _ _ _ he
        subst hcols
        exact ⟨lookup_carry_user _ _ _, lookup_carry_day _ _ _⟩
      cases hv : lookupField fs field with
      | none =>
          rw [hv] at h
          simp only [Option.getD_none, Json.pyIter, collectRows,
            Option.some.injEq] at h
          subst h
          refine ⟨?_, by intro row hrow; cases hrow⟩
          simp [nestedLen, recField, hv]
      | some v =>
          rw [hv] at h
          simp only [Option.getD_some] at h
          cases v with
          | arr xs =>
              simp only [Json.pyIter] at h
              refine ⟨?_, hcarry h⟩
              have hlen := (collectRows_forall₂ h).length_eq
              simp [nestedLen, recField, hv, hlen.symm]
          | str s =>
              simp only [Json.pyIter] at h
              cases hs : s.data with
              | nil =>
                  rw [hs] at h
                  simp only [List.map_nil, collectRows, Option.some.injEq] at h
                  subst h
                  exact ⟨by simp [nestedLen, recField, hv], by intro row hrow; cases hrow⟩
              | cons c cs =>
                  rw [hs] at h
                  simp only [List.map_cons] at h
                  obtain ⟨row, hrow⟩ := collectRows_head_some h
                  have := hObj _ _ _ hrow
                  simp [Json.isObj] at this
          | obj gs =>
              simp only [Json.pyIter] at h
              cases gs with
              | nil =>
                  simp only [List.map_nil, collectRows, Option.some.injEq] at h
                  subst h
                  exact ⟨by simp [nestedLen, recField, hv], by intro row hrow; cases hrow⟩
              | cons kv rest =>
                  simp only [List.map_cons] at h
                  obtain ⟨row, hrow⟩ := collectRows_head_some h
                  have := hObj _ _ _ hrow
                  simp [Json.isObj] at this
          | num n => simp [Json.pyIter] at h
          | bool b => simp [Json.pyIter] at h
          | null => simp [Json.pyIter] at h
  | null => simp [breakdownRecordRows, Json.pyGet] at h
  | bool b => simp [breakdownRecordRows, Json.pyGet] at h
  | num n => simp [breakdownRecordRows, Json.pyGet] at h
  | str s => simp [breakdownRecordRows, Json.pyGet] at h
  | arr xs => simp [breakdownRecordRows, Json.pyGet] at h

theorem breakdown_sheet_spec {field : String} {er : Row → Json → Option Row}
    (hObj : ∀ ui e row, er ui e = some row → Json.isObj e = true)
    (hShape : ∀ ui e row, er ui e = some row → ∃ cols, row = ui ++ cols) :
    ∀ (data : List Json) (rows : List Row),
      sheetLoop (breakdownRecordRows field er) data [] = some rows →
        rows.length = (data.map (nestedLen field)).sum ∧
        ∃ rss, rows = rss.flatten ∧
          List.Forall₂ (fun r block =>
            block.length = nestedLen field r ∧
            ∀ row ∈ block,
              lookupField row "User Login" = some (carryUser r) ∧
              lookupField row "Day" = some (carryDay r)) data rss := by
  intro data rows h
  rw [sheetLoop_eq_collect] at h
  cases hc : collectRows (breakdownRecordRows field er) data with
  | none => rw [hc] at h; exact absurd h (by simp)
  | some rss =>
      rw [hc] at h
      simp only [Option.map_some', Option.some.injEq, List.nil_append] at h
      subst h
      have hspec :
          List.Forall₂ (fun r block =>
            block.length = nestedLen field r ∧
            ∀ row ∈ block,
              lookupField row "User Login" = some (carryUser r) ∧
              lookupField row "Day" = some (carryDay r)) data rss :=
        (collectRows_forall₂ hc).imp
          (fun _ _ hb => breakdownRecordRows_spec hObj hShape hb)
      refine ⟨?_, rss, rfl, hspec⟩
      rw [List.length_flatten]
      have hmap : data.map (nestedLen field) = rss.map List.length :=
        forall₂_map_eq (fun _ _ hb => hb.1.symm) hspec
      rw [hmap]

theorem ideEntryRow_isObj :
    ∀ (ui : Row) (e : Json) (row : Row), ideEntryRow ui e = some row →
      Json.isObj e = true := by
  intro ui e row h
  cases e <;> simp_all [ideEntryRow, Json.isObj]

theorem ideEntryRow_shape :
    ∀ (ui : Row) (e : Json) (row : Row), ideEntryRow ui e = some row →
      ∃ cols, row = ui ++ cols := by
  intro ui e row h
  cases e with
  | obj fs =>
      simp only [ideEntryRow] at h
      split at h
      · simp only [Option.some.injEq] at h
        exact ⟨_, h.symm⟩
      · exact absurd h (by simp)
  | null => exact absurd h (by simp [ideEntryRow])
  | bool b => exact absurd h (by simp [ideEntryRow])
  | num n => exact absurd h (by simp [ideEntryRow])
  | str s => exact absurd h (by simp [ideEntryRow])
  | arr xs => exact absurd h (by simp [ideEntryRow])

theorem featureEntryRow_isObj :
    ∀ (ui : Row) (e : Json) (row : Row), featureEntryRow ui e = some row →
      Json.isObj e = true := by
  intro ui e row h
  cases e <;> simp_all [featureEntryRow, Json.isObj]

theorem featureEntryRow_shape :
    ∀ (ui : Row) (e : Json) (row : Row), featureEntryRow ui e = some row →
      ∃ cols, row = ui ++ cols := by
  intro ui e row h
  cases e <;> simp only [featureEntryRow, Option.some.injEq] at h <;>
    first
      | exact ⟨_, h.symm⟩
      | exact absurd h (by simp)

theorem langFeatureEntryRow_isObj :
    ∀ (ui : Row) (e : Json) (row : Row), langFeatureEntryRow ui e = some row →
      Json.isObj e = true := by
  intro ui e row h
  cases e <;> simp_all [langFeatureEntryRow, Json.isObj]

theorem langFeatureEntryRow_shape :
    ∀ (ui : Row) (e : Json) (row : Row), langFeatureEntryRow ui e = some row →
      ∃ cols, row = ui ++ cols := by
  intro ui e row h
  cases e <;> simp only [langFeatureEntryRow, Option.some.injEq] at h <;>
    first
      | exact ⟨_, h.symm⟩
      | exact absurd h (by simp)

theorem langModelEntryRow_isObj :
    ∀ (ui : Row) (e : Json) (row : Row), langModelEntryRow ui e = some row →
      Json.isObj e = true := by
  intro ui e row h
  cases e <;> simp_all [langModelEntryRow, Json.isObj]

theorem langModelEntryRow_shape :
    ∀ (ui : Row) (e : Json) (row : Row), langModelEntryRow ui e = some row →
      ∃ cols, row = ui ++ cols := by
  intro ui e row h
  cases e <;> simp only [langModelEntryRow, Option.some.injEq] at h <;>
    first
      | exact ⟨_, h.symm⟩
      | exact absurd h (by simp)

theorem modelFeatureEntryRow_isObj :
    ∀ (ui : Row) (e : Json) (row : Row), modelFeatureEntryRow ui e = some row →
      Json.isObj e = true := by
  intro ui e row h
  cases e <;> simp_all [modelFeatureEntryRow, Json.isObj]

theorem modelFeatureEntryRow_shape :
    ∀ (ui : Row) (e : Json) (row : Row), modelFeatureEntryRow ui e = some row →
      ∃ cols, row = ui ++ cols := by
  intro ui e row h
  cases e <;> simp only [modelFeatureEntryRow, Option.some.injEq] at h <;>
    first
      | exact ⟨_, h.symm⟩
      | exact absurd h (by simp)

/-! ## Claims -/

/-- C1: for every list of records, each of the five breakdown builders
(IDE, feature, language/feature, language/model, model/feature), whenever
it completes, produces a table whose row count is the sum over all
records of the length of that record's corresponding nested list (0 when
the field is absent), and the table splits into one block per record, in
order, every row of a block carrying that record's user login and day as
carry-over columns. -/
theorem breakdown_builders_row_count_and_carry :
    (∀ (data : List Json) (rows : List Row),
      create_ide_totals_sheet data = some rows →
        rows.length = (data.map (nestedLen "totals_by_ide")).sum ∧
        ∃ rss, rows = rss.flatten ∧
          List.Forall₂ (fun r block =>
            block.length = nestedLen "totals_by_ide" r ∧
            ∀ row ∈ block,
              lookupField row "User Login" = some (carryUser r) ∧
              lookupField row "Day" = some (carryDay r)) data rss) ∧
    (∀ (data : List Json) (rows : List Row),
      create_feature_totals_sheet data = some rows →
        rows.length = (data.map (nestedLen "totals_by_feature")).sum ∧
        ∃ rss, rows = rss.flatten ∧
          List.Forall₂ (fun r block =>
            block.length = nestedLen "totals_by_feature" r ∧
            ∀ row ∈ block,
              lookupField row "User Login" = some (carryUser r) ∧
              lookupField row "Day" = some (carryDay r)) data rss) ∧
    (∀ (data : List Json) (rows : List Row),
      create_language_feature_sheet data = some rows →
        rows.length = (data.map (nestedLen "totals_by_language_feature")).sum ∧
        ∃ rss, rows = rss.flatten ∧
          List.Forall₂ (fun r block =>
            block.length = nestedLen "totals_by_language_feature" r ∧
            ∀ row ∈ block,
              lookupField row "User Login" = some (carryUser r) ∧
              lookupField row "Day" = some (carryDay r)) data rss) ∧
    (∀ (data : List Json) (rows : List Row),
      create_language_model_sheet data = some rows →
        rows.length = (data.map (nestedLen "totals_by_language_model")).sum ∧
        ∃ rss, rows = rss.flatten ∧
          List.Forall₂ (fun r block =>
            block.length = nestedLen "totals_by_language_model" r ∧
            ∀ row ∈ block,
              lookupField row "User Login" = some (carryUser r) ∧
              lookupField row "Day" = some (carryDay r)) data rss) ∧
    (∀ (data : List Json) (rows : List Row),
      create_model_feature_sheet data = some rows →
        rows.length = (data.map (nestedLen "totals_by_model_feature")).sum ∧
        ∃ rss, rows = rss.flatten ∧
          List.Forall₂ (fun r block =>
            block.length = nestedLen "totals_by_model_feature" r ∧
            ∀ row ∈ block,
              lookupField row "User Login" = some (carryUser r) ∧
              lookupField row "Day" = some (carryDay r)) data rss) :=
  ⟨breakdown_sheet_spec ideEntryRow_isObj ideEntryRow_shape,
   breakdown_sheet_spec featureEntryRow_isObj featureEntryRow_shape,
   breakdown_sheet_spec langFeatureEntryRow_isObj langFeatureEntryRow_shape,
   breakdown_sheet_spec langModelEntryRow_isObj langModelEntryRow_shape,
   breakdown_sheet_spec modelFeatureEntryRow_isObj modelFeatureEntryRow_shape⟩

/-- Witness for C1: a two-record input, one record with a one-entry
`totals_by_ide` list and one without the field, gives an IDE table of
exactly one row carrying the first record's user and day. -/
theorem breakdown_builders_row_count_and_carry_witness :
    create_ide_totals_sheet
        [Json.obj [("user_login", .str "alice"), ("day", .str "2024-01-01"),
            ("totals_by_ide", .arr [.obj [("ide", .str "vscode"), ("loc_added_sum", .num 5)]])],
         Json.obj [("user_login", .str "bob")]]
      = some [[("User Login", .str "alice"), ("Day", .str "2024-01-01"),
               ("IDE", .str "vscode"), ("User Initiated Interactions", .num 0),
               ("Code Generation Activity", .num 0), ("Code Acceptance Activity", .num 0),
               ("LOC Suggested to Add", .num 0), ("LOC Suggested to Delete", .num 0),
               ("LOC Added", .num 5), ("LOC Deleted", .num 0),
               ("Plugin Version", .str ""), ("IDE Version", .str "")]] ∧
    ([[("User Login", Json.str "alice"), ("Day", Json.str "2024-01-01"),
       ("IDE", Json.str "vscode"), ("User Initiated Interactions", Json.num 0),
       ("Code Generation Activity", Json.num 0), ("Code Acceptance Activity", Json.num 0),
       ("LOC Suggested to Add", Json.num 0), ("LOC Suggested to Delete", Json.num 0),
       ("LOC Added", Json.num 5), ("LOC Deleted", Json.num 0),
       ("Plugin Version", Json.str ""), ("IDE Version", Json.str "")]] : List Row).length
        = ([Json.obj [("user_login", .str "alice"), ("day", .str "2024-01-01"),
              ("totals_by_ide", .arr [.obj [("ide", .str "vscode"), ("loc_added_sum", .num 5)]])],
            Json.obj [("user_login", .str "bob")]].map (nestedLen "totals_by_ide")).sum ∧
      ∃ rss,
        ([[("User Login", Json.str "alice"), ("Day", Json.str "2024-01-01"),
           ("IDE", Json.str "vscode"), ("User Initiated Interactions", Json.num 0),
           ("Code Generation Activity", Json.num 0), ("Code Acceptance Activity", Json.num 0),
           ("LOC Suggested to Add", Json.num 0), ("LOC Suggested to Delete", Json.num 0),
           ("LOC Added", Json.num 5), ("LOC Deleted", Json.num 0),
           ("Plugin Version", Json.str ""), ("IDE Version", Json.str "")]] : List Row)
          = rss.flatten ∧
        List.Forall₂ (fun r block =>
          block.length = nestedLen "totals_by_ide" r ∧
          ∀ row ∈ block,
            lookupField row "User Login" = some (carryUser r) ∧
            lookupField row "Day" = some (carryDay r))
          [Json.obj [("user_login", .str "alice"), ("day", .str "2024-01-01"),
              ("totals_by_ide", .arr [.obj [("ide", .str "vscode"), ("loc_added_sum", .num 5)]])],
           Json.obj [("user_login", .str "bob")]] rss :=
  ⟨rfl, breakdown_builders_row_count_and_carry.1 _ _ rfl⟩

/-- C2: the main-metrics builder, whenever it completes, emits exactly
one row per input record in input order (row i is built from record i);
and a record with none of the optional fields yields a row whose numeric
columns are 0, string columns "", and boolean columns false. -/
theorem main_metrics_one_row_per_record :
    (∀ (data : List Json) (rows : List Row),
      create_main_metrics_sheet data = some rows →
        rows.length = data.length ∧
        List.Forall₂ (fun r row => mainRow r = some row) data rows) ∧
    create_main_metrics_sheet [Json.obj []] =
      some [[("Report Start", .str ""), ("Report End", .str ""), ("Day", .str ""),
             ("Enterprise ID", .str ""), ("User ID", .str ""), ("User Login", .str ""),
             ("User Initiated Interactions", .num 0), ("Code Generation Activity", .num 0),
             ("Code Acceptance Activity", .num 0), ("LOC Suggested to Add", .num 0),
             ("LOC Suggested to Delete", .num 0), ("LOC Added", .num 0),
             ("LOC Deleted", .num 0), ("Used Agent", .bool false),
             ("Used Chat", .bool false)]] := by
  constructor
  · intro data rows h
    simp only [create_main_metrics_sheet] at h
    rw [mainLoop_eq_collect] at h
    cases hc : collectRows mainRow data with
    | none => rw [hc] at h; exact absurd h (by simp)
    | some rows' =>
        rw [hc] at h
        simp only [Option.map_some', Option.some.injEq, List.nil_append] at h
        subst h
        have hf := collectRows_forall₂ hc
        exact ⟨hf.length_eq.symm, hf⟩
  · rfl

/-- Witness for C2: a singleton input list gives a one-row table built
from that record. -/
theorem main_metrics_one_row_per_record_witness :
    create_main_metrics_sheet [Json.obj [("day", .str "2024-01-01")]]
      = some [[("Report Start", .str ""), ("Report End", .str ""),
               ("Day", .str "2024-01-01"), ("Enterprise ID", .str ""),
               ("User ID", .str ""), ("User Login", .str ""),
               ("User Initiated Interactions", .num 0), ("Code Generation Activity", .num 0),
               ("Code Acceptance Activity", .num 0), ("LOC Suggested to Add", .num 0),
               ("LOC Suggested to Delete", .num 0), ("LOC Added", .num 0),
               ("LOC Deleted", .num 0), ("Used Agent", .bool false),
               ("Used Chat", .bool false)]] ∧
    ([[("Report Start", Json.str ""), ("Report End", Json.str ""),
       ("Day", Json.str "2024-01-01"), ("Enterprise ID", Json.str ""),
       ("User ID", Json.str ""), ("User Login", Json.str ""),
       ("User Initiated Interactions", Json.num 0), ("Code Generation Activity", Json.num 0),
       ("Code Acceptance Activity", Json.num 0), ("LOC Suggested to Add", Json.num 0),
       ("LOC Suggested to Delete", Json.num 0), ("LOC Added", Json.num 0),
       ("LOC Deleted", Json.num 0), ("Used Agent", Json.bool false),
       ("Used Chat", Json.bool false)]] : List Row).length
        = [Json.obj [("day", .str "2024-01-01")]].length ∧
      List.Forall₂ (fun r row => mainRow r = some row)
        [Json.obj [("day", .str "2024-01-01")]]
        [[("Report Start", Json.str ""), ("Report End", Json.str ""),
          ("Day", Json.str "2024-01-01"), ("Enterprise ID", Json.str ""),
          ("User ID", Json.str ""), ("User Login", Json.str ""),
          ("User Initiated Interactions", Json.num 0), ("Code Generation Activity", Json.num 0),
          ("Code Acceptance Activity", Json.num 0), ("LOC Suggested to Add", Json.num 0),
          ("LOC Suggested to Delete", Json.num 0), ("LOC Added", Json.num 0),
          ("LOC Deleted", Json.num 0), ("Used Agent", Json.bool false),
          ("Used Chat", Json.bool false)]] :=
  ⟨rfl, main_metrics_one_row_per_record.1 _ _ rfl⟩

theorem ndjsonFold_eq (jparse : String → Option Json) (lines : List String) :
    ndjsonFold jparse lines
      = lines.filterMap (fun line => if pyStrip line = "" then none else jparse line) := by
  suffices h : ∀ (ls : List String) (acc : List Json),
      ls.foldl
          (fun acc line =>
            if pyStrip line = "" then acc
            else
              match jparse line with
              | some v => acc ++ [v]
              | none => acc)
          acc
        = acc ++ ls.filterMap (fun line => if pyStrip line = "" then none else jparse line) by
    simpa [ndjsonFold] using h lines []
  intro ls
  induction ls with
  | nil => intro acc; simp
  | cons l rest ih =>
      intro acc
      simp only [List.foldl_cons, List.filterMap_cons]
      by_cases hb : pyStrip l = ""
      · simp [hb, ih]
      · cases hj : jparse l with
        | none => simp [hb, hj, ih]
        | some v => simp [hb, hj, ih, List.append_assoc]

/-- C3: whenever the whole (stripped) content parses as one JSON value,
the loader returns that value unchanged if it is an array, and the
one-element list containing it if it is an object. -/
theorem loader_single_document :
    ∀ (jparse : String → Option Json) (content : String) (v : Json),
      jparse (pyStrip content) = some v →
        (∀ xs, v = Json.arr xs → load_json_data jparse (some content) = xs) ∧
        (∀ fs, v = Json.obj fs → load_json_data jparse (some content) = [Json.obj fs]) := by
  intro jparse content v h
  constructor
  · intro xs hv
    subst hv
    simp [load_json_data, loadContent, h]
  · intro fs hv
    subst hv
    simp [load_json_data, loadContent, h]

/-- Witness for C3: a parser seeing a two-element array, and one seeing a
single object, at a concrete content string. -/
theorem loader_single_document_witness :
    (fun _ => some (Json.arr [.num 1, .num 2])) (pyStrip "x") = some (Json.arr [.num 1, .num 2]) ∧
    load_json_data (fun _ => some (Json.arr [.num 1, .num 2])) (some "x") = [Json.num 1, Json.num 2] ∧
    (fun _ => some (Json.obj [("a", .num 1)])) (pyStrip "x") = some (Json.obj [("a", .num 1)]) ∧
    load_json_data (fun _ => some (Json.obj [("a", .num 1)])) (some "x") = [Json.obj [("a", .num 1)]] :=
  ⟨rfl,
   (loader_single_document (fun _ => some (Json.arr [.num 1, .num 2])) "x" _ rfl).1 _ rfl,
   rfl,
   (loader_single_document (fun _ => some (Json.obj [("a", .num 1)])) "x" _ rfl).2 _ rfl⟩

/-- C4: when the whole (stripped) content fails to parse, the loader
returns exactly the parsed values of the non-blank lines that parse, in
original line order; blank lines and lines that fail to parse are
absent. -/
theorem loader_ndjson :
    ∀ (jparse : String → Option Json) (content : String),
      jparse (pyStrip content) = none →
        load_json_data jparse (some content)
          = (pySplitLines (pyStrip content)).filterMap
              (fun line => if pyStrip line = "" then none else jparse line) := by
  intro jparse content h
  simp [load_json_data, loadContent, h, ndjsonFold_eq]

/-- Witness for C4: a parser accepting exactly the line `1`, on content
whose middle line is blank and whose last line is malformed. -/
theorem loader_ndjson_witness :
    (fun s => if s = "1" then some (Json.num 1) else none) (pyStrip "1\n\nbad") = none ∧
    load_json_data (fun s => if s = "1" then some (Json.num 1) else none) (some "1\n\nbad")
      = (pySplitLines (pyStrip "1\n\nbad")).filterMap
          (fun line =>
            if pyStrip line = "" then none
            else (fun s => if s = "1" then some (Json.num 1) else none) line) ∧
    load_json_data (fun s => if s = "1" then some (Json.num 1) else none) (some "1\n\nbad")
      = [Json.num 1] :=
  ⟨rfl, loader_ndjson (fun s => if s = "1" then some (Json.num 1) else none) "1\n\nbad" rfl, rfl⟩

/-- C5: a failed file read yields the empty list instead of an exception;
content none of which parses (in particular empty or whitespace-only
content, whose lines are all blank or unparseable) yields the empty
list; and on an empty record list the conversion returns early with no
workbook written. -/
theorem loader_empty_and_abort :
    (∀ jparse : String → Option Json, load_json_data jparse none = []) ∧
    (∀ (jparse : String → Option Json) (content : String),
      jparse (pyStrip content) = none →
      (∀ line ∈ pySplitLines (pyStrip content), jparse line = none) →
      load_json_data jparse (some content) = []) ∧
    (∀ (jparse : String → Option Json) (file : Option String),
      load_json_data jparse file = [] →
      convert_json_to_xlsx jparse file = ConvertResult.noData) := by
  refine ⟨fun _ => rfl, ?_, ?_⟩
  · intro jparse content h hall
    simp only [load_json_data, loadContent, h, ndjsonFold_eq]
    rw [List.filterMap_eq_nil_iff]
    intro line hl
    by_cases hb : pyStrip line = ""
    · simp [hb]
    · simp [hb, hall line hl]
  · intro jparse file h
    simp [convert_json_to_xlsx, h]

/-- Witness for C5: a parser rejecting everything, on a whitespace-only
content and on a missing file. -/
theorem loader_empty_and_abort_witness :
    load_json_data (fun _ => none) none = [] ∧
    load_json_data (fun _ => none) (some " ") = [] ∧
    convert_json_to_xlsx (fun _ => none) (some " ") = ConvertResult.noData :=
  ⟨loader_empty_and_abort.1 _,
   loader_empty_and_abort.2.1 _ " " rfl (fun _ _ => rfl),
   loader_empty_and_abort.2.2 _ _
     (loader_empty_and_abort.2.1 _ " " rfl (fun _ _ => rfl))⟩

/-- C6: whenever a workbook is written, its tab list is exactly the
builder-supplied sheets dict, in dict order, restricted to the sheets
whose table is non-empty; each written tab holds its builder's table
unchanged (columns and rows in builder order), and a tab is present
exactly when its grouping's table is non-empty. -/
theorem writer_tabs_nonempty :
    ∀ (jparse : String → Option Json) (file : Option String)
      (ws : List (String × List Row)),
      convert_json_to_xlsx jparse file = ConvertResult.wrote ws →
        ∃ m i f lf lm mf,
          load_json_data jparse file ≠ [] ∧
          create_main_metrics_sheet (load_json_data jparse file) = some m ∧
          create_ide_totals_sheet (load_json_data jparse file) = some i ∧
          create_feature_totals_sheet (load_json_data jparse file) = some f ∧
          create_language_feature_sheet (load_json_data jparse file) = some lf ∧
          create_language_model_sheet (load_json_data jparse file) = some lm ∧
          create_model_feature_sheet (load_json_data jparse file) = some mf ∧
          ws = ([("Main_Metrics", m), ("IDE_Totals", i), ("Feature_Totals", f),
                 ("Language_Feature", lf), ("Language_Model", lm),
                 ("Model_Feature", mf)]).filter (fun p => !p.2.isEmpty) ∧
          (∀ (nm : String) (t : List Row),
            (nm, t) ∈ ws ↔
              ((nm, t) ∈ [("Main_Metrics", m), ("IDE_Totals", i), ("Feature_Totals", f),
                          ("Language_Feature", lf), ("Language_Model", lm),
                          ("Model_Feature", mf)] ∧ t ≠ [])) := by
  intro jparse file ws h
  unfold convert_json_to_xlsx at h
  by_cases hd : (load_json_data jparse file).isEmpty
  · rw [if_pos hd] at h
    exact ConvertResult.noConfusion h
  · rw [if_neg hd] at h
    cases hb : buildSheets (load_json_data jparse file) with
    | none =>
        rw [hb] at h
        exact ConvertResult.noConfusion h
    | some sheets =>
        rw [hb] at h
        injection h with h
        unfold buildSheets at hb
        split at hb
        · next m i f lf lm mf hm hi hf hlf hlm hmf =>
            injection hb with hb
            subst hb
            subst h
            refine ⟨m, i, f, lf, lm, mf,
              by simpa [List.isEmpty_iff] using hd, hm, hi, hf, hlf, hlm, hmf, rfl, ?_⟩
            intro nm t
            rw [List.mem_filter]
            simp [List.isEmpty_iff]
        · exact Option.noConfusion hb

/-- Witness for C6: a one-record input with one IDE entry writes exactly
the `Main_Metrics` and `IDE_Totals` tabs; the four other tables are
empty and skipped. -/
theorem writer_tabs_nonempty_witness :
    convert_json_to_xlsx
        (fun _ => some (Json.obj [("user_login", .str "alice"), ("day", .str "2024-01-01"),
          ("totals_by_ide", .arr [.obj []])]))
        (some "x")
      = ConvertResult.wrote
          [("Main_Metrics",
            [[("Report Start", .str ""), ("Report End", .str ""), ("Day", .str "2024-01-01"),
              ("Enterprise ID", .str ""), ("User ID", .str ""), ("User Login", .str "alice"),
              ("User Initiated Interactions", .num 0), ("Code Generation Activity", .num 0),
              ("Code Acceptance Activity", .num 0), ("LOC Suggested to Add", .num 0),
              ("LOC Suggested to Delete", .num 0), ("LOC Added", .num 0),
              ("LOC Deleted", .num 0), ("Used Agent", .bool false), ("Used Chat", .bool false)]]),
           ("IDE_Totals",
            [[("User Login", .str "alice"), ("Day", .str "2024-01-01"), ("IDE", .str ""),
              ("User Initiated Interactions", .num 0), ("Code Generation Activity", .num 0),
              ("Code Acceptance Activity", .num 0), ("LOC Suggested to Add", .num 0),
              ("LOC Suggested to Delete", .num 0), ("LOC Added", .num 0),
              ("LOC Deleted", .num 0), ("Plugin Version", .str ""), ("IDE Version", .str "")]])] ∧
    (∃ m i f lf lm mf,
      load_json_data
          (fun _ => some (Json.obj [("user_login", .str "alice"), ("day", .str "2024-01-01"),
            ("totals_by_ide", .arr [.obj []])]))
          (some "x") ≠ [] ∧
      create_main_metrics_sheet
          (load_json_data
            (fun _ => some (Json.obj [("user_login", .str "alice"), ("day", .str "2024-01-01"),
              ("totals_by_ide", .arr [.obj []])]))
            (some "x")) = some m ∧
      create_ide_totals_sheet
          (load_json_data
            (fun _ => some (Json.obj [("user_login", .str "alice"), ("day", .str "2024-01-01"),
              ("totals_by_ide", .arr [.obj []])]))
            (some "x")) = some i ∧
      create_feature_totals_sheet
          (load_json_data
            (fun _ => some (Json.obj [("user_login", .str "alice"), ("day", .str "2024-01-01"),
              ("totals_by_ide", .arr [.obj []])]))
            (some "x")) = some f ∧
      create_language_feature_sheet
          (load_json_data
            (fun _ => some (Json.obj [("user_login", .str "alice"), ("day", .str "2024-01-01"),
              ("totals_by_ide", .arr [.obj []])]))
            (some "x")) = some lf ∧
      create_language_model_sheet
          (load_json_data
            (fun _ => some (Json.obj [("user_login", .str "alice"), ("day", .str "2024-01-01"),
              ("totals_by_ide", .arr [.obj []])]))
            (some "x")) = some lm ∧
      create_model_feature_sheet
          (load_json_data
            (fun _ => some (Json.obj [("user_login", .str "alice"), ("day", .str "2024-01-01"),
              ("totals_by_ide", .arr [.obj []])]))
            (some "x")) = some mf ∧
      [("Main_Metrics",
        [[("Report Start", Json.str ""), ("Report End", Json.str ""),
          ("Day", Json.str "2024-01-01"), ("Enterprise ID", Json.str ""),
          ("User ID", Json.str ""), ("User Login", Json.str "alice"),
          ("User Initiated Interactions", Json.num 0), ("Code Generation Activity", Json.num 0),
          ("Code Acceptance Activity", Json.num 0), ("LOC Suggested to Add", Json.num 0),
          ("LOC Suggested to Delete", Json.num 0), ("LOC Added", Json.num 0),
          ("LOC Deleted", Json.num 0), ("Used Agent", Json.bool false),
          ("Used Chat", Json.bool false)]]),
       ("IDE_Totals",
        [[("User Login", Json.str "alice"), ("Day", Json.str "2024-01-01"),
          ("IDE", Json.str ""), ("User Initiated Interactions", Json.num 0),
          ("Code Generation Activity", Json.num 0), ("Code Acceptance Activity", Json.num 0),
          ("LOC Suggested to Add", Json.num 0), ("LOC Suggested to Delete", Json.num 0),
          ("LOC Added", Json.num 0), ("LOC Deleted", Json.num 0),
          ("Plugin Version", Json.str ""), ("IDE Version", Json.str "")]])]
        = ([("Main_Metrics", m), ("IDE_Totals", i), ("Feature_Totals", f),
            ("Language_Feature", lf), ("Language_Model", lm),
            ("Model_Feature", mf)]).filter (fun p => !p.2.isEmpty) ∧
      (∀ (nm : String) (t : List Row),
        (nm, t) ∈
            [("Main_Metrics",
              [[("Report Start", Json.str ""), ("Report End", Json.str ""),
                ("Day", Json.str "2024-01-01"), ("Enterprise ID", Json.str ""),
                ("User ID", Json.str ""), ("User Login", Json.str "alice"),
                ("User Initiated Interactions", Json.num 0),
                ("Code Generation Activity", Json.num 0),
                ("Code Acceptance Activity", Json.num 0), ("LOC Suggested to Add", Json.num 0),
                ("LOC Suggested to Delete", Json.num 0), ("LOC Added", Json.num 0),
                ("LOC Deleted", Json.num 0), ("Used Agent", Json.bool false),
                ("Used Chat", Json.bool false)]]),
             ("IDE_Totals",
              [[("User Login", Json.str "alice"), ("Day", Json.str "2024-01-01"),
                ("IDE", Json.str ""), ("User Initiated Interactions", Json.num 0),
                ("Code Generation Activity", Json.num 0),
                ("Code Acceptance Activity", Json.num 0),
                ("LOC Suggested to Add", Json.num 0), ("LOC Suggested to Delete", Json.num 0),
                ("LOC Added", Json.num 0), ("LOC Deleted", Json.num 0),
                ("Plugin Version", Json.str ""), ("IDE Version", Json.str "")]])] ↔
          ((nm, t) ∈ [("Main_Metrics", m), ("IDE_Totals", i), ("Feature_Totals", f),
                      ("Language_Feature", lf), ("Language_Model", lm),
                      ("Model_Feature", mf)] ∧ t ≠ []))) :=
  ⟨rfl,
   writer_tabs_nonempty
     (fun _ => some (Json.obj [("user_login", .str "alice"), ("day", .str "2024-01-01"),
       ("totals_by_ide", .arr [.obj []])]))
     (some "x") _ rfl⟩

/-- C7: on the spec's example input (one record with `day`, `user_login`
and a one-entry `totals_by_ide`, and no top-level `loc_added_sum`), the
main table has exactly one row with `LOC Added` 0, and the IDE table has
exactly one row with `IDE` "vscode", `LOC Added` 5, `User Login` "alice"
and `Day` "2024-01-01". -/
theorem example_record_projection :
    ∃ r1 r2,
      create_main_metrics_sheet
          [Json.obj [("day", .str "2024-01-01"), ("user_login", .str "alice"),
            ("totals_by_ide", .arr [.obj [("ide", .str "vscode"), ("loc_added_sum", .num 5)]])]]
        = some [r1] ∧
      lookupField r1 "LOC Added" = some (.num 0) ∧
      create_ide_totals_sheet
          [Json.obj [("day", .str "2024-01-01"), ("user_login", .str "alice"),
            ("totals_by_ide", .arr [.obj [("ide", .str "vscode"), ("loc_added_sum", .num 5)]])]]
        = some [r2] ∧
      lookupField r2 "IDE" = some (.str "vscode") ∧
      lookupField r2 "LOC Added" = some (.num 5) ∧
      lookupField r2 "User Login" = some (.str "alice") ∧
      lookupField r2 "Day" = some (.str "2024-01-01") :=
  ⟨_, _, rfl, rfl, rfl, rfl, rfl, rfl, rfl⟩

theorem sheetLoop_nil_acc (f : Json → Option (List Row)) (data : List Json) :
    sheetLoop f data [] = (collectRows f data).map List.flatten := by
  rw [sheetLoop_eq_collect]
  cases collectRows f data <;> simp

theorem mainLoop_nil_acc (data : List Json) :
    sheetLoop (fun r => (mainRow r).map (fun row => [row])) data []
      = collectRows mainRow data := by
  rw [mainLoop_eq_collect]
  cases collectRows mainRow data <;> simp

/-- C8: each builder is a pure function of the record list: the
imperative accumulator loop of each builder computes exactly the
compositional per-record projection (map each record to its rows,
concatenate), so equal inputs give equal tables and the records are only
read, never rebuilt or altered. -/
theorem builders_pure_functions :
    ∀ data : List Json,
      create_main_metrics_sheet data = mainMetricsTable data ∧
      create_ide_totals_sheet data = breakdownTable "totals_by_ide" ideEntryRow data ∧
      create_feature_totals_sheet data
        = breakdownTable "totals_by_feature" featureEntryRow data ∧
      create_language_feature_sheet data
        = breakdownTable "totals_by_language_feature" langFeatureEntryRow data ∧
      create_language_model_sheet data
        = breakdownTable "totals_by_language_model" langModelEntryRow data ∧
      create_model_feature_sheet data
        = breakdownTable "totals_by_model_feature" modelFeatureEntryRow data :=
  fun data =>
    ⟨mainLoop_nil_acc data, sheetLoop_nil_acc _ data, sheetLoop_nil_acc _ data,
     sheetLoop_nil_acc _ data, sheetLoop_nil_acc _ data, sheetLoop_nil_acc _ data⟩

theorem sheetLoop_none {f : Json → Option (List Row)} {l : List Json} {r : Json}
    (hr : r ∈ l) (hfr : f r = none) : ∀ acc, sheetLoop f l acc = none := by
  induction l with
  | nil => cases hr
  | cons a as ih =>
      intro acc
      simp only [sheetLoop]
      rcases List.mem_cons.mp hr with h1 | h2
      · subst h1; rw [hfr]
      · cases hfa : f a with
        | none => rfl
        | some rows => exact ih h2 _

theorem sheetLoop_some {f : Json → Option (List Row)} {l : List Json}
    (hall : ∀ r ∈ l, ∃ rows, f r = some rows) :
    ∀ acc, ∃ out, sheetLoop f l acc = some out := by
  induction l with
  | nil => intro acc; exact ⟨acc, rfl⟩
  | cons a as ih =>
      intro acc
      obtain ⟨rows, hrows⟩ := hall a (List.mem_cons_self a as)
      obtain ⟨out, hout⟩ := ih (fun x hx => hall x (List.mem_cons_of_mem a hx)) (acc ++ rows)
      exact ⟨out, by simp only [sheetLoop]; rw [hrows]; exact hout⟩

theorem mainRow_none_of_not_obj {r : Json} (h : Json.isObj r = false) :
    mainRow r = none := by
  cases r <;> simp_all [Json.isObj, mainRow]

theorem breakdownRecordRows_none_of_not_obj {field : String}
    {er : Row → Json → Option Row} {r : Json} (h : Json.isObj r = false) :
    breakdownRecordRows field er r = none := by
  cases r <;> simp_all [Json.isObj, breakdownRecordRows, Json.pyGet]

theorem breakdownRecordRows_some {field : String} {er : Row → Json → Option Row}
    {p : Json → Bool} (her : ∀ ui e, p e = true → ∃ row, er ui e = some row)
    {r : Json} (hobj : Json.isObj r = true)
    (hf : goodBreakdownField r field p = true) :
    ∃ rs, breakdownRecordRows field er r = some rs := by
  cases r with
  | obj fs =>
      simp only [breakdownRecordRows, Json.pyGet]
      cases hv : lookupField fs field with
      | none => exact ⟨[], by simp [hv, Json.pyIter, collectRows]⟩
      | some v =>
          simp only [goodBreakdownField, recField, hv] at hf
          cases v with
          | arr es =>
              simp only [hv, Option.getD_some, Json.pyIter]
              exact collectRows_isSome
                (fun e he => her _ e (List.all_eq_true.mp hf e he))
          | null => exact absurd hf (by simp [Json.isObj])
          | bool b => exact absurd hf (by simp [Json.isObj])
          | num n => exact absurd hf (by simp [Json.isObj])
          | str s => exact absurd hf (by simp [Json.isObj])
          | obj gs => exact absurd hf (by simp [Json.isObj])
  | null => exact absurd hobj (by simp [Json.isObj])
  | bool b => exact absurd hobj (by simp [Json.isObj])
  | num n => exact absurd hobj (by simp [Json.isObj])
  | str s => exact absurd hobj (by simp [Json.isObj])
  | arr xs => exact absurd hobj (by simp [Json.isObj])

theorem featureEntryRow_some :
    ∀ (ui : Row) (e : Json), Json.isObj e = true → ∃ row, featureEntryRow ui e = some row := by
  intro ui e h
  cases e <;> simp_all [Json.isObj, featureEntryRow]

theorem langFeatureEntryRow_some :
    ∀ (ui : Row) (e : Json), Json.isObj e = true → ∃ row, langFeatureEntryRow ui e = some row := by
  intro ui e h
  cases e <;> simp_all [Json.isObj, langFeatureEntryRow]

theorem langModelEntryRow_some :
    ∀ (ui : Row) (e : Json), Json.isObj e = true → ∃ row, langModelEntryRow ui e = some row := by
  intro ui e h
  cases e <;> simp_all [Json.isObj, langModelEntryRow]

theorem modelFeatureEntryRow_some :
    ∀ (ui : Row) (e : Json), Json.isObj e = true → ∃ row, modelFeatureEntryRow ui e = some row := by
  intro ui e h
  cases e <;> simp_all [Json.isObj, modelFeatureEntryRow]

theorem versionField_pyGet_some {fs : List (String × Json)} {field : String} (key : String)
    (h : goodVersionField (.obj fs) field = true) :
    ∃ v, ((lookupField fs field).getD (.obj [])).pyGet key (.str "") = some v := by
  cases hv : lookupField fs field with
  | none => exact ⟨.str "", by simp [hv, Json.pyGet, lookupField]⟩
  | some w =>
      simp only [goodVersionField, recField, hv] at h
      cases w <;> simp_all [Json.isObj, Json.pyGet]

theorem ideEntryRow_some :
    ∀ (ui : Row) (e : Json), goodIdeEntry e = true → ∃ row, ideEntryRow ui e = some row := by
  intro ui e h
  simp only [goodIdeEntry, Bool.and_eq_true] at h
  obtain ⟨⟨hobj, hpv⟩, hiv⟩ := h
  cases e with
  | obj fs =>
      obtain ⟨pv, hpv'⟩ := versionField_pyGet_some "plugin_version" hpv
      obtain ⟨iv, hiv'⟩ := versionField_pyGet_some "ide_version" hiv
      exact ⟨_, by simp only [ideEntryRow]; rw [hpv', hiv']⟩
  | null => exact absurd hobj (by simp [Json.isObj])
  | bool b => exact absurd hobj (by simp [Json.isObj])
  | num n => exact absurd hobj (by simp [Json.isObj])
  | str s => exact absurd hobj (by simp [Json.isObj])
  | arr xs => exact absurd hobj (by simp [Json.isObj])

theorem mainRow_some {r : Json} (h : Json.isObj r = true) :
    ∃ row, mainRow r = some row := by
  cases r <;> simp_all [Json.isObj, mainRow]

/-- Counterexample to C9 as stated: the record list
`[obj [("totals_by_ide", 1)]]` consists of objects only, yet the IDE
builder raises (iterating the number), so the all-objects precondition
does not make every builder total. -/
theorem builders_total_on_objects_counterexample :
    ¬ (∀ data : List Json, (∀ r ∈ data, Json.isObj r = true) →
        ∃ t, create_ide_totals_sheet data = some t) := by
  intro h
  obtain ⟨t, ht⟩ := h [Json.obj [("totals_by_ide", Json.num 1)]]
    (by intro r hr; rw [List.mem_singleton] at hr; subst hr; rfl)
  rw [show create_ide_totals_sheet [Json.obj [("totals_by_ide", Json.num 1)]] = none
        from rfl] at ht
  exact Option.noConfusion ht

/-- C9 (amended): the loader wraps any non-array JSON value — a bare
string or number included — into a one-element list; any non-object
record makes every builder fail; and all six builders are total under
the strengthened precondition `wfRecord`: every record is an object
whose breakdown fields, when present, are lists of objects (IDE entries
additionally with object-or-absent version fields).  The all-objects
precondition alone is not enough (see the counterexample). -/
theorem builders_partiality_amended :
    (∀ (jparse : String → Option Json) (content : String) (v : Json),
      jparse (pyStrip content) = some v → (∀ xs, v ≠ Json.arr xs) →
      load_json_data jparse (some content) = [v]) ∧
    (∀ (data : List Json) (r : Json), r ∈ data → Json.isObj r = false →
      create_main_metrics_sheet data = none ∧
      create_ide_totals_sheet data = none ∧
      create_feature_totals_sheet data = none ∧
      create_language_feature_sheet data = none ∧
      create_language_model_sheet data = none ∧
      create_model_feature_sheet data = none) ∧
    (∀ data : List Json, (∀ r ∈ data, wfRecord r = true) →
      (∃ t, create_main_metrics_sheet data = some t) ∧
      (∃ t, create_ide_totals_sheet data = some t) ∧
      (∃ t, create_feature_totals_sheet data = some t) ∧
      (∃ t, create_language_feature_sheet data = some t) ∧
      (∃ t, create_language_model_sheet data = some t) ∧
      (∃ t, create_model_feature_sheet data = some t)) := by
  refine ⟨?_, ?_, ?_⟩
  · intro jparse content v h hne
    cases v with
    | arr xs => exact absurd rfl (hne xs)
    | null => simp [load_json_data, loadContent, h]
    | bool b => simp [load_json_data, loadContent, h]
    | num n => simp [load_json_data, loadContent, h]
    | str s => simp [load_json_data, loadContent, h]
    | obj fs => simp [load_json_data, loadContent, h]
  · intro data r hr hobj
    exact ⟨sheetLoop_none hr (by rw [mainRow_none_of_not_obj hobj]; rfl) [],
           sheetLoop_none hr (breakdownRecordRows_none_of_not_obj hobj) [],
           sheetLoop_none hr (breakdownRecordRows_none_of_not_obj hobj) [],
           sheetLoop_none hr (breakdownRecordRows_none_of_not_obj hobj) [],
           sheetLoop_none hr (breakdownRecordRows_none_of_not_obj hobj) [],
           sheetLoop_none hr (breakdownRecordRows_none_of_not_obj hobj) []⟩
  · intro data hall
    have hw : ∀ r ∈ data,
        Json.isObj r = true ∧
        goodBreakdownField r "totals_by_ide" goodIdeEntry = true ∧
        goodBreakdownField r "totals_by_feature" Json.isObj = true ∧
        goodBreakdownField r "totals_by_language_feature" Json.isObj = true ∧
        goodBreakdownField r "totals_by_language_model" Json.isObj = true ∧
        goodBreakdownField r "totals_by_model_feature" Json.isObj = true := by
      intro r hr
      have h := hall r hr
      simp only [wfRecord, Bool.and_eq_true] at h
      exact ⟨h.1.1.1.1.1, h.1.1.1.1.2, h.1.1.1.2, h.1.1.2, h.1.2, h.2⟩
    refine ⟨sheetLoop_some ?_ [], sheetLoop_some ?_ [], sheetLoop_some ?_ [],
            sheetLoop_some ?_ [], sheetLoop_some ?_ [], sheetLoop_some ?_ []⟩
    · intro r hr
      obtain ⟨row, hrow⟩ := mainRow_some (hw r hr).1
      exact ⟨[row], by rw [hrow]; rfl⟩
    · intro r hr
      exact breakdownRecordRows_some ideEntryRow_some (hw r hr).1 (hw r hr).2.1
    · intro r hr
      exact breakdownRecordRows_some featureEntryRow_some (hw r hr).1 (hw r hr).2.2.1
    · intro r hr
      exact breakdownRecordRows_some langFeatureEntryRow_some (hw r hr).1 (hw r hr).2.2.2.1
    · intro r hr
      exact breakdownRecordRows_some langModelEntryRow_some (hw r hr).1 (hw r hr).2.2.2.2.1
    · intro r hr
      exact breakdownRecordRows_some modelFeatureEntryRow_some (hw r hr).1 (hw r hr).2.2.2.2.2

/-- Witness for the amended C9: a bare number is wrapped by the loader; a
non-object record makes all six builders fail; a well-formed record list
makes all six builders succeed. -/
theorem builders_partiality_amended_witness :
    load_json_data (fun _ => some (Json.num 5)) (some "x") = [Json.num 5] ∧
    (create_main_metrics_sheet [Json.num 3] = none ∧
     create_ide_totals_sheet [Json.num 3] = none ∧
     create_feature_totals_sheet [Json.num 3] = none ∧
     create_language_feature_sheet [Json.num 3] = none ∧
     create_language_model_sheet [Json.num 3] = none ∧
     create_model_feature_sheet [Json.num 3] = none) ∧
    ((∃ t, create_main_metrics_sheet
        [Json.obj [("user_login", .str "alice"), ("day", .str "2024-01-01"),
          ("totals_by_ide", .arr [.obj []])]] = some t) ∧
     (∃ t, create_ide_totals_sheet
        [Json.obj [("user_login", .str "alice"), ("day", .str "2024-01-01"),
          ("totals_by_ide", .arr [.obj []])]] = some t) ∧
     (∃ t, create_feature_totals_sheet
        [Json.obj [("user_login", .str "alice"), ("day", .str "2024-01-01"),
          ("totals_by_ide", .arr [.obj []])]] = some t) ∧
     (∃ t, create_language_feature_sheet
        [Json.obj [("user_login", .str "alice"), ("day", .str "2024-01-01"),
          ("totals_by_ide", .arr [.obj []])]] = some t) ∧
     (∃ t, create_language_model_sheet
        [Json.obj [("user_login", .str "alice"), ("day", .str "2024-01-01"),
          ("totals_by_ide", .arr [.obj []])]] = some t) ∧
     (∃ t, create_model_feature_sheet
        [Json.obj [("user_login", .str "alice"), ("day", .str "2024-01-01"),
          ("totals_by_ide", .arr [.obj []])]] = some t)) :=
  ⟨builders_partiality_amended.1 (fun _ => some (Json.num 5)) "x" (Json.num 5) rfl
      (fun _ h => Json.noConfusion h),
   builders_partiality_amended.2.1 [Json.num 3] (Json.num 3)
      (List.mem_singleton.mpr rfl) rfl,
   builders_partiality_amended.2.2
      [Json.obj [("user_login", .str "alice"), ("day", .str "2024-01-01"),
        ("totals_by_ide", .arr [.obj []])]]
      (by intro r hr; rw [List.mem_singleton] at hr; subst hr; rfl)⟩

theorem pluginVersion_value {fs : List (String × Json)} {out : Json}
    (h : ((lookupField fs "last_known_plugin_version").getD (.obj [])).pyGet
          "plugin_version" (.str "") = some out) :
    out = specPluginVersion (.obj fs) := by
  cases hpv : lookupField fs "last_known_plugin_version" with
  | none =>
      rw [hpv] at h
      simp only [Option.getD_none, Json.pyGet, lookupField, Option.some.injEq] at h
      simp [specPluginVersion, recField, hpv, ← h]
  | some w =>
      rw [hpv] at h
      cases w with
      | obj gs =>
          simp only [Option.getD_some, Json.pyGet, Option.some.injEq] at h
          simp [specPluginVersion, recField, hpv, ← h]
      | null => simp [Json.pyGet] at h
      | bool b => simp [Json.pyGet] at h
      | num n => simp [Json.pyGet] at h
      | str s => simp [Json.pyGet] at h
      | arr xs => simp [Json.pyGet] at h

theorem ideVersion_value {fs : List (String × Json)} {out : Json}
    (h : ((lookupField fs "last_known_ide_version").getD (.obj [])).pyGet
          "ide_version" (.str "") = some out) :
    out = specIdeVersion (.obj fs) := by
  cases hpv : lookupField fs "last_known_ide_version" with
  | none =>
      rw [hpv] at h
      simp only [Option.getD_none, Json.pyGet, lookupField, Option.some.injEq] at h
      simp [specIdeVersion, recField, hpv, ← h]
  | some w =>
      rw [hpv] at h
      cases w with
      | obj gs =>
          simp only [Option.getD_some, Json.pyGet, Option.some.injEq] at h
          simp [specIdeVersion, recField, hpv, ← h]
      | null => simp [Json.pyGet] at h
      | bool b => simp [Json.pyGet] at h
      | num n => simp [Json.pyGet] at h
      | str s => simp [Json.pyGet] at h
      | arr xs => simp [Json.pyGet] at h

/-- C10: in every row the IDE builder emits, the `Plugin Version` cell is
`entry.last_known_plugin_version.plugin_version` and the `IDE Version`
cell is `entry.last_known_ide_version.ide_version`, each read through a
second level of nesting and defaulting to `""` when the nested object or
its inner field is absent. -/
theorem ide_nested_version_columns :
    ∀ (u d e : Json) (row : Row),
      ideEntryRow [("User Login", u), ("Day", d)] e = some row →
        lookupField row "Plugin Version" = some (specPluginVersion e) ∧
        lookupField row "IDE Version" = some (specIdeVersion e) := by
  intro u d e row h
  cases e with
  | obj fs =>
      simp only [ideEntryRow] at h
      split at h
      · rename_i pv iv heq1 heq2
        injection h with h
        subst h
        constructor
        · show some pv = some (specPluginVersion (Json.obj fs))
          exact congrArg some (pluginVersion_value heq1)
        · show some iv = some (specIdeVersion (Json.obj fs))
          exact congrArg some (ideVersion_value heq2)
      · exact Option.noConfusion h
  | null => exact absurd h (by simp [ideEntryRow])
  | bool b => exact absurd h (by simp [ideEntryRow])
  | num n => exact absurd h (by simp [ideEntryRow])
  | str s => exact absurd h (by simp [ideEntryRow])
  | arr xs => exact absurd h (by simp [ideEntryRow])

/-- Witness for C10: an entry whose plugin-version object is present
(inner field `"1.2"`) and whose IDE-version object is absent. -/
theorem ide_nested_version_columns_witness :
    ideEntryRow [("User Login", Json.str "u"), ("Day", Json.str "d")]
        (.obj [("last_known_plugin_version", .obj [("plugin_version", .str "1.2")])])
      = some [("User Login", Json.str "u"), ("Day", Json.str "d"),
              ("IDE", .str ""), ("User Initiated Interactions", .num 0),
              ("Code Generation Activity", .num 0), ("Code Acceptance Activity", .num 0),
              ("LOC Suggested to Add", .num 0), ("LOC Suggested to Delete", .num 0),
              ("LOC Added", .num 0), ("LOC Deleted", .num 0),
              ("Plugin Version", .str "1.2"), ("IDE Version", .str "")] ∧
    lookupField
        [("User Login", Json.str "u"), ("Day", Json.str "d"),
         ("IDE", Json.str ""), ("User Initiated Interactions", Json.num 0),
         ("Code Generation Activity", Json.num 0), ("Code Acceptance Activity", Json.num 0),
         ("LOC Suggested to Add", Json.num 0), ("LOC Suggested to Delete", Json.num 0),
         ("LOC Added", Json.num 0), ("LOC Deleted", Json.num 0),
         ("Plugin Version", Json.str "1.2"), ("IDE Version", Json.str "")]
        "Plugin Version"
      = some (specPluginVersion
          (.obj [("last_known_plugin_version", .obj [("plugin_version", .str "1.2")])])) ∧
    lookupField
        [("User Login", Json.str "u"), ("Day", Json.str "d"),
         ("IDE", Json.str ""), ("User Initiated Interactions", Json.num 0),
         ("Code Generation Activity", Json.num 0), ("Code Acceptance Activity", Json.num 0),
         ("LOC Suggested to Add", Json.num 0), ("LOC Suggested to Delete", Json.num 0),
         ("LOC Added", Json.num 0), ("LOC Deleted", Json.num 0),
         ("Plugin Version", Json.str "1.2"), ("IDE Version", Json.str "")]
        "IDE Version"
      = some (specIdeVersion
          (.obj [("last_known_plugin_version", .obj [("plugin_version", .str "1.2")])])) :=
  ⟨rfl,
   ide_nested_version_columns (Json.str "u") (Json.str "d")
     (.obj [("last_known_plugin_version", .obj [("plugin_version", .str "1.2")])]) _ rfl⟩
